import Mathlib

/-!
Verification of the park-maintenance record keeper (`app.py`).

The development shallowly embeds the pieces of `app.py` that the report
assembler, the CRUD endpoints and the bulk-wipe endpoint are built from:
Python values are the inductive `PyVal`, a JSON/DB row is an association
list, Python `dict` comprehensions become association lists whose lookup
takes the latest binding, and code that can raise is embedded into
`Option`/`Except`.
-/

namespace TamanKota

/-- Python runtime values appearing in rows of this application: `None`,
`int`, `str`, and `datetime` (carried as its second-precision ISO string,
which is all the code ever extracts from it). -/
inductive PyVal where
  | none
  | int (n : Int)
  | str (s : String)
  | dt (iso : String)
deriving DecidableEq

/-- Python `str(v)` for the values above (`str(None) = "None"`). -/
def pyStr : PyVal → String
  | PyVal.none => "None"
  | PyVal.int n => toString n
  | PyVal.str s => s
  | PyVal.dt s => s

/-- Python truthiness: `None`, `0` and `""` are falsy; a datetime is truthy. -/
def truthy : PyVal → Bool
  | PyVal.none => false
  | PyVal.int n => n != 0
  | PyVal.str s => s != ""
  | PyVal.dt _ => true

/-- Decimal-digit accumulator for `pyIntOfString`. -/
def parseDigitsLoop (acc : Nat) : List Char → Option Nat
  | [] => some acc
  | c :: cs =>
    if 48 ≤ c.toNat ∧ c.toNat ≤ 57 then parseDigitsLoop (acc * 10 + (c.toNat - 48)) cs
    else Option.none

/-- A non-empty run of decimal digits, as a natural number. -/
def parseDigits : List Char → Option Nat
  | [] => Option.none
  | c :: cs => parseDigitsLoop 0 (c :: cs)

/-- Python `int(s)` on a string: an optional sign followed by decimal
digits; anything else raises `ValueError`, modelled as `Option.none`. -/
def pyIntOfString (s : String) : Option Int :=
  match s.data with
  | '-' :: ds => (parseDigits ds).map (fun n => -(n : Int))
  | '+' :: ds => (parseDigits ds).map (fun n => (n : Int))
  | ds => (parseDigits ds).map (fun n => (n : Int))

/-- Python `int(v)`; `Option.none` models the `TypeError`/`ValueError` raised
on `None`, a non-numeric string, or a datetime. -/
def pyInt : PyVal → Option Int
  | PyVal.int n => some n
  | PyVal.str s => pyIntOfString s
  | _ => Option.none

/-- Python `str.lower()` (the application only case-folds ASCII names). -/
def pyLower (s : String) : String := String.mk (s.data.map Char.toLower)

/-- A row / JSON object: an association list with distinct keys. -/
abbrev Row := List (String × PyVal)

/-- Python `d.get(k, default)`. -/
def dgetD (r : Row) (k : String) (d : PyVal) : PyVal :=
  ((r.find? (fun p => p.1 == k)).map (fun p => p.2)).getD d

/-- Python `d.get(k)` (absent key yields `None`). -/
def dget (r : Row) (k : String) : PyVal := dgetD r k PyVal.none

/-- Python `d[k]` bracket access; `Option.none` models the `KeyError`. -/
def dgetKey (r : Row) (k : String) : Option PyVal :=
  (r.find? (fun p => p.1 == k)).map (fun p => p.2)

/-- Lookup in a dict built by a comprehension: Python keeps the latest
binding for a duplicated key, so the lookup prefers entries added later
(they sit deeper in the list, which is built in iteration order). -/
def dfind {K V : Type} [BEq K] : List (K × V) → K → Option V
  | [], _ => Option.none
  | e :: rest, key =>
    match dfind rest key with
    | some w => some w
    | Option.none => if e.1 == key then some e.2 else Option.none

/-- Python `d.get(k, default)` on a comprehension-built dict. -/
def dfindD {K V : Type} [BEq K] (m : List (K × V)) (k : K) (d : V) : V :=
  (dfind m k).getD d

/-- The single-quote character (code 39). -/
def squote : Char := Char.ofNat 39

/-- Python `s.replace(c, rep)` for a one-character pattern `c`: every
occurrence of `c` is replaced by `rep`. -/
def replaceChar (c : Char) (rep : List Char) : List Char → List Char
  | [] => []
  | x :: xs => if x = c then rep ++ replaceChar c rep xs else x :: replaceChar c rep xs

/-- The replacement chain of `_escape_html` on the character list of the
string: `&`, then `<`, `>`, `"` and the single quote. -/
def escape_chars (s : List Char) : List Char :=
  replaceChar squote ("&#39;".data)
    (replaceChar '"' ("&quot;".data)
      (replaceChar '>' ("&gt;".data)
        (replaceChar '<' ("&lt;".data)
          (replaceChar '&' ("&amp;".data) s))))

/-- `_escape_html(s)`: `None` becomes the empty string, any other value goes
through `str()` and the five replacements. -/
def escape_html (v : PyVal) : String :=
  String.mk (escape_chars (if v = PyVal.none then "" else pyStr v).data)

/-- Python `"".join` of a list of strings. -/
def sjoin : List String → String
  | [] => ""
  | x :: xs => x ++ sjoin xs

/-- `_build_table(headers, rows_)`: a `<table>` with one `<th>` per header
and one `<td>` per cell, every cell passed through `_escape_html`. -/
def build_table (headers : List String) (rows_ : List (List PyVal)) : String :=
  let thead := "<thead><tr>" ++
    sjoin (headers.map (fun h => "<th>" ++ escape_html (PyVal.str h) ++ "</th>")) ++
    "</tr></thead>"
  let tbody := "<tbody>" ++
    sjoin (rows_.map (fun r =>
      "<tr>" ++ sjoin (r.map (fun c => "<td>" ++ escape_html c ++ "</td>")) ++ "</tr>")) ++
    "</tbody>"
  "<table>" ++ thead ++ tbody ++ "</table>"

/-- `_fmt_date(v)`: a datetime is rendered as its ISO string with a space
separator and second precision; every other value passes through. -/
def fmt_date : PyVal → PyVal
  | PyVal.dt s => PyVal.str s
  | v => v

/-- `enumerate` starting at `n` (helper for `pyEnum`). -/
def enumFromN {α : Type} (n : Nat) : List α → List (Nat × α)
  | [] => []
  | x :: xs => (n, x) :: enumFromN (n + 1) xs

/-- Python `enumerate(l)`. -/
def pyEnum {α : Type} (l : List α) : List (Nat × α) := enumFromN 0 l

/-- The dict comprehension at app.py:228,
`{int(t["id_taman"]): t["nama_taman"] for t in taman if t.get("id_taman") is not None}`.
The conversion and the bracket access are not wrapped in a handler, so a
guarded row whose `id_taman` does not convert, or which lacks
`nama_taman`, raises out of the comprehension (`Option.none`). -/
def map_taman_name_by_id : List Row → Option (List (Int × PyVal))
  | [] => some []
  | t :: ts =>
    if dget t "id_taman" = PyVal.none then map_taman_name_by_id ts
    else
      match pyInt (dget t "id_taman"), dgetKey t "nama_taman", map_taman_name_by_id ts with
      | some k, some v, some rest => some ((k, v) :: rest)
      | _, _, _ => Option.none

/-- The loop at app.py:229-237 building plant-id → park-name entries; each
iteration is wrapped in `try/except: pass`, so a row whose identifiers do
not convert is skipped rather than raising. -/
def map_taman_name_by_tanaman_id (m1 : List (Int × PyVal)) : List Row → List (Int × PyVal)
  | [] => []
  | x :: xs =>
    match pyInt (dget x "id_tanaman") with
    | Option.none => map_taman_name_by_tanaman_id m1 xs
    | some idt =>
      if dget x "id_taman" = PyVal.none then map_taman_name_by_tanaman_id m1 xs
      else
        match pyInt (dget x "id_taman") with
        | Option.none => map_taman_name_by_tanaman_id m1 xs
        | some k => (idt, dfindD m1 k (PyVal.str "-")) :: map_taman_name_by_tanaman_id m1 xs

/-- The key of a plant row in the name map: `str(x.get("nama_umum","")).lower()`. -/
def nameKey (x : Row) : String := pyLower (pyStr (dgetD x "nama_umum" (PyVal.str "")))

/-- The dict comprehension at app.py:238,
`{str(x.get("nama_umum","")).lower(): x for x in tanaman_}`. -/
def map_tanaman_by_name (tanaman_ : List Row) : List (String × Row) :=
  tanaman_.map (fun x => (nameKey x, x))

/-- The park-name resolution for one report row (app.py:269-278): prefer the
plant-identifier path when `id_tanaman` is not `None` (a conversion failure
is caught and leaves the placeholder), otherwise fall back to the
case-folded name lookup when a truthy display name is present; all failures
leave `"-"`. -/
def laporanNamaTaman (m2 : List (Int × PyVal)) (mn : List (String × Row))
    (m1 : List (Int × PyVal)) (L : Row) : PyVal :=
  if dget L "id_tanaman" ≠ PyVal.none then
    match pyInt (dget L "id_tanaman") with
    | some n => dfindD m2 n (PyVal.str "-")
    | Option.none => PyVal.str "-"
  else if truthy (dget L "tanaman") then
    match dfind mn (pyLower (pyStr (dget L "tanaman"))) with
    | some t_ =>
      if t_ ≠ [] ∧ dget t_ "id_taman" ≠ PyVal.none then
        match pyInt (dget t_ "id_taman") with
        | some k => dfindD m1 k (PyVal.str "-")
        | Option.none => PyVal.str "-"
      else PyVal.str "-"
    | Option.none => PyVal.str "-"
  else PyVal.str "-"

/-- One row of section V (app.py:280-287). -/
def laporan_row (m2 : List (Int × PyVal)) (mn : List (String × Row))
    (m1 : List (Int × PyVal)) (i : Nat) (L : Row) : List PyVal :=
  [ PyVal.int (Int.ofNat (i + 1)),
    (if truthy (fmt_date (dget L "tanggal")) then fmt_date (dget L "tanggal") else PyVal.str ""),
    laporanNamaTaman m2 mn m1 L,
    dgetD L "tanaman" (PyVal.str ""),
    dgetD L "kegiatan" (PyVal.str ""),
    dgetD L "isi_laporan" (PyVal.str "") ]

/-- One row of section IV (app.py:258-264). The conversion
`int(x.get("id_taman") or 0)` is not wrapped in a handler, so a truthy but
non-numeric `id_taman` raises (`Option.none`). -/
def sec4_row (m1 : List (Int × PyVal)) (i : Nat) (x : Row) : Option (List PyVal) :=
  match pyInt (if truthy (dget x "id_taman") then dget x "id_taman" else PyVal.int 0) with
  | Option.none => Option.none
  | some k =>
    some
      [ PyVal.int (Int.ofNat (i + 1)),
        dfindD m1 k (PyVal.str "-"),
        dgetD x "nama_umum" (PyVal.str ""),
        dgetD x "nama_ilmiah" (PyVal.str "-"),
        dgetD x "jenis" (PyVal.str "-") ]

/-- All rows of section IV; a raise in any row aborts the comprehension. -/
def sec4_rows (m1 : List (Int × PyVal)) : List (Nat × Row) → Option (List (List PyVal))
  | [] => some []
  | p :: rest =>
    match sec4_row m1 p.1 p.2, sec4_rows m1 rest with
    | some r, some rs => some (r :: rs)
    | _, _ => Option.none

/-- The five row-sets handed to `_build_report_html`. -/
structure Bundle where
  taman : List Row
  petugas : List Row
  kegiatan : List Row
  tanaman_ : List Row
  laporan : List Row
deriving DecidableEq

/-- Template text of the report document before the printed date. -/
def htmlA0 : String :=
  "<!doctype html>\n<html>\n<head>\n<meta charset=\"utf-8\">\n<title>Laporan Kegiatan Penataan Taman Kota</title>\n<style>\n  body\x7b font-family:Inter, Arial, sans-serif; color:#111827; margin:24px; \x7d\n  h1\x7b margin:0 0 8px; font-size:22px \x7d\n  h2\x7b margin:22px 0 8px; font-size:16px \x7d\n  .muted\x7b color:#374151; font-size:12px; margin-bottom:16px \x7d\n  table\x7b width:100%; border-collapse:collapse; margin:8px 0 18px \x7d\n  th,td\x7b border:1px solid #d1d5db; padding:8px 10px; font-size:12px; vertical-align:top \x7d\n  thead th\x7b background:#f3f4f6; font-weight:700 \x7d\n  .header\x7b display:flex; justify-content:space-between; align-items:flex-end; margin-bottom:8px \x7d\n  @media print\x7b @page\x7b size:A4; margin:15mm \x7d body\x7b margin:0 \x7d .noprint\x7b display:none !important \x7d \x7d\n</style>\n</head>\n<body>\n  <div class=\"header\">\n    <h1>Laporan Kegiatan Penataan Taman Kota</h1>\n    <div class=\"muted\">Tanggal cetak: "

/-- Template text between the printed date and section I. -/
def htmlA1 : String :=
  "</div>\n  </div>\n\n  <h2>I. Identitas Taman</h2>\n  "

/-- Template text between sections I and II. -/
def htmlA2 : String := "\n\n  <h2>II. Susunan Petugas Taman</h2>\n  "

/-- Template text between sections II and III. -/
def htmlA3 : String := "\n\n  <h2>III. Kegiatan yang Dilakukan</h2>\n  "

/-- Template text between sections III and IV. -/
def htmlA4 : String := "\n\n  <h2>IV. Data Tanaman di Taman</h2>\n  "

/-- Template text between sections IV and V. -/
def htmlA5 : String := "\n\n  <h2>V. Laporan Pendataan Penataan Taman Kota</h2>\n  "

/-- Template text after section V. -/
def htmlA6 : String :=
  "\n\n  <div class=\"muted\">Sumber: Sistem Informasi Perawatan Taman Kota</div>\n</body>\n</html>"

/-- Section I of the report (app.py:241-244). -/
def report_sec1 (b : Bundle) : String :=
  build_table ["No.", "Nama", "Luas (mÂ²)", "Lokasi"]
    ((pyEnum b.taman).map (fun p =>
      [ PyVal.int (Int.ofNat (p.1 + 1)),
        dgetD p.2 "nama_taman" (PyVal.str ""),
        dgetD p.2 "luas_taman" (PyVal.str "-"),
        dgetD p.2 "lokasi" (PyVal.str "-") ]))

/-- Section II of the report (app.py:246-249). -/
def report_sec2 (b : Bundle) : String :=
  build_table ["No.", "Nama Petugas", "Jabatan"]
    ((pyEnum b.petugas).map (fun p =>
      [ PyVal.int (Int.ofNat (p.1 + 1)),
        dgetD p.2 "nama_petugas" (PyVal.str ""),
        dgetD p.2 "jabatan" (PyVal.str "-") ]))

/-- Section III of the report (app.py:251-254). -/
def report_sec3 (b : Bundle) : String :=
  build_table ["No.", "Jenis Kegiatan"]
    ((pyEnum b.kegiatan).map (fun p =>
      [ PyVal.int (Int.ofNat (p.1 + 1)),
        dgetD p.2 "jenis_kegiatan" (PyVal.str "") ]))

/-- Header row of section IV. -/
def hdr4 : List String := ["No.", "Nama Taman", "Nama Tanaman", "Nama Ilmiah", "Jenis"]

/-- Header row of section V. -/
def hdr5 : List String := ["No.", "Tanggal", "Nama Taman", "Nama Tanaman", "Kegiatan", "Isi Laporan"]

/-- The rows of section V (app.py:267-287). -/
def rows5 (b : Bundle) (m1 : List (Int × PyVal)) : List (List PyVal) :=
  (pyEnum b.laporan).map (fun p =>
    laporan_row (map_taman_name_by_tanaman_id m1 b.tanaman_) (map_tanaman_by_name b.tanaman_)
      m1 p.1 p.2)

/-- `_build_report_html(bundle)` (app.py:220-336). The print date
`datetime.now().strftime("%d %B %Y")` is impure and is passed in as
`tglStr`. `Option.none` models an exception escaping the function (the
unguarded conversions in the parks map and in section IV). -/
def build_report_html (b : Bundle) (tglStr : String) : Option String :=
  match map_taman_name_by_id b.taman with
  | Option.none => Option.none
  | some m1 =>
    match sec4_rows m1 (pyEnum b.tanaman_) with
    | Option.none => Option.none
    | some r4 =>
      some (htmlA0 ++ escape_html (PyVal.str tglStr) ++ htmlA1 ++ report_sec1 b ++ htmlA2 ++
        report_sec2 b ++ htmlA3 ++ report_sec3 b ++ htmlA4 ++ build_table hdr4 r4 ++ htmlA5 ++
        build_table hdr5 (rows5 b m1) ++ htmlA6)

/-- The values bound to the columns of one `INSERT INTO laporan` row. -/
structure LaporanInsert where
  id_tanaman : Int
  id_petugas : Int
  id_kegiatan : Int
  tanggal : PyVal
  isi_laporan : PyVal
deriving DecidableEq

/-- `create_laporan` (app.py:167-193): the three foreign keys are converted
with `int(payload[k])` inside one handler (a missing key or a failed
conversion yields the 400 message); the `tanggal` column receives `NOW()`
(passed in as `now`) when the supplied value is falsy, otherwise exactly the
supplied value; `isi_laporan` defaults to `""`. -/
def create_laporan (payload : Row) (now : PyVal) : Except String LaporanInsert :=
  match pyInt (dget payload "id_tanaman"), pyInt (dget payload "id_petugas"),
        pyInt (dget payload "id_kegiatan") with
  | some a, some b, some c =>
    if truthy (dget payload "tanggal") then
      Except.ok ⟨a, b, c, dget payload "tanggal", dgetD payload "isi_laporan" (PyVal.str "")⟩
    else
      Except.ok ⟨a, b, c, now, dgetD payload "isi_laporan" (PyVal.str "")⟩
  | _, _, _ => Except.error "id_tanaman, id_petugas, id_kegiatan are required (ints)"

/-- The five operational tables; row payloads are abstract. -/
structure DBState where
  laporan : List Row
  tanaman : List Row
  petugas : List Row
  kegiatan : List Row
  taman : List Row
deriving DecidableEq

/-- The state with every table empty. -/
def emptyDB : DBState := ⟨[], [], [], [], []⟩

/-- Names of the five operational tables. -/
inductive Tbl where
  | laporan
  | tanaman
  | petugas
  | kegiatan
  | taman
deriving DecidableEq

/-- The FK-safe order of the `DELETE` statements in `admin_clear_all`. -/
def wipeOrder : List Tbl := [Tbl.laporan, Tbl.tanaman, Tbl.petugas, Tbl.kegiatan, Tbl.taman]

/-- `DELETE FROM t` applied to the in-transaction state. -/
def clearTbl : Tbl → DBState → DBState
  | Tbl.laporan, s => { s with laporan := [] }
  | Tbl.tanaman, s => { s with tanaman := [] }
  | Tbl.petugas, s => { s with petugas := [] }
  | Tbl.kegiatan, s => { s with kegiatan := [] }
  | Tbl.taman, s => { s with taman := [] }

/-- Run the `DELETE` statements in order inside one transaction; `failAt`
is the environment oracle saying which statement the store rejects, and a
rejection aborts the sequence (`Option.none`). -/
def runDeletes (failAt : Tbl → Bool) : List Tbl → DBState → Option DBState
  | [], s => some s
  | t :: ts, s => if failAt t then Option.none else runDeletes failAt ts (clearTbl t s)

/-- `admin_clear_all` (app.py:447-496): a falsy `confirm` field returns 400
before any connection is opened; otherwise the five `DELETE`s run inside
one transaction, committed on success (the optional `AUTO_INCREMENT` resets
touch no rows and each is individually caught) and rolled back as a unit on
a store error, so the committed state is unchanged on failure. The result
is the HTTP status and the committed state. -/
def admin_clear_all (payload : Row) (failAt : Tbl → Bool) (db : DBState) : Nat × DBState :=
  if truthy (dget payload "confirm") = false then (400, db)
  else
    match runDeletes failAt wipeOrder db with
    | some s => (200, s)
    | Option.none => (500, db)

/-- Lexicographic comparison of character lists by code point (model of
the store's string collation). -/
def charsLe : List Char → List Char → Bool
  | [], _ => true
  | _ :: _, [] => false
  | x :: xs, y :: ys =>
    if x.toNat < y.toNat then true
    else if y.toNat < x.toNat then false
    else charsLe xs ys

/-- String comparison used by the `ORDER BY` model. -/
def strLe (a b : String) : Bool := charsLe a.data b.data

/-- Insert into a list sorted by `le` (model of the store's `ORDER BY`). -/
def insertSorted (le : Row → Row → Bool) (x : Row) : List Row → List Row
  | [] => [x]
  | y :: ys => if le x y then x :: y :: ys else y :: insertSorted le x ys

/-- Insertion sort by `le` (model of the store's `ORDER BY`). -/
def sortRows (le : Row → Row → Bool) : List Row → List Row
  | [] => []
  | x :: xs => insertSorted le x (sortRows le xs)

/-- Query-string arguments of a request. -/
abbrev Args := List (String × String)

/-- The raw value of one query-string argument. -/
def argFind (args : Args) (k : String) : Option String :=
  (args.find? (fun p => p.1 == k)).map (fun p => p.2)

/-- Flask `request.args.get(k, default=d, type=int)`: the default is
returned when the argument is absent or fails the conversion. -/
def argGetInt (args : Args) (k : String) (d : Int) : Int :=
  match argFind args k with
  | Option.none => d
  | some s => (pyIntOfString s).getD d

/-- Flask `request.args.get(k, type=int)` with no default. -/
def argGetIntOpt (args : Args) (k : String) : Option Int :=
  (argFind args k).bind pyIntOfString

/-- `list_taman` (app.py:58-62): all park rows ordered by name; the request
arguments are never consulted. -/
def list_taman (db : List Row) (_args : Args) : List Row :=
  sortRows (fun a b => strLe (pyStr (dget a "nama_taman")) (pyStr (dget b "nama_taman"))) db

/-- `list_petugas` (app.py:82-84): all staff rows ordered by name; the
request arguments are never consulted. -/
def list_petugas (db : List Row) (_args : Args) : List Row :=
  sortRows (fun a b => strLe (pyStr (dget a "nama_petugas")) (pyStr (dget b "nama_petugas"))) db

/-- `list_kegiatan` (app.py:100-102): all activity-type rows ordered by
label; the request arguments are never consulted. -/
def list_kegiatan (db : List Row) (_args : Args) : List Row :=
  sortRows (fun a b => strLe (pyStr (dget a "jenis_kegiatan")) (pyStr (dget b "jenis_kegiatan"))) db

/-- `list_tanaman` (app.py:117-125): requires a truthy `id_taman` argument
(absent, unparseable, or zero is a 400) and returns every plant row of that
park, ordered by id descending, with no limit. -/
def list_tanaman (db : List Row) (args : Args) : Except String (List Row) :=
  match argGetIntOpt args "id_taman" with
  | Option.none => Except.error "id_taman query param is required"
  | some i =>
    if i = 0 then Except.error "id_taman query param is required"
    else Except.ok (sortRows
      (fun a b => (pyInt (dget b "id_tanaman")).getD 0 ≤ (pyInt (dget a "id_tanaman")).getD 0)
      (db.filter (fun r => pyInt (dget r "id_taman") == some i)))

/-- Order report rows by `tanggal` descending (model of `ORDER BY l.tanggal
DESC`; `joined` stands for the store's join result). -/
def sortLaporan (joined : List Row) : List Row :=
  sortRows (fun a b => strLe (pyStr (dget b "tanggal")) (pyStr (dget a "tanggal"))) joined

/-- `list_laporan` (app.py:149-165): the only plain list endpoint with a
`limit` argument (default 20); a negative limit is a store error. -/
def list_laporan (joined : List Row) (args : Args) : Except String (List Row) :=
  let limit := argGetInt args "limit" 20
  if limit < 0 then Except.error "SQL syntax error"
  else Except.ok ((sortLaporan joined).take limit.toNat)

/-- Normalise a datetime `tanggal` value to its ISO string (app.py:399-401). -/
def normTanggal (r : Row) : Row :=
  r.map (fun p => if p.1 == "tanggal" then (p.1, fmt_date p.2) else p)

/-- `report_all` (app.py:350-403): one bundle of the five row-sets; only the
report rows take a `limit` (default 100000). -/
def report_all (taman petugas kegiatan tanaman_ joined : List Row) (args : Args) :
    Except String Bundle :=
  let limit := argGetInt args "limit" 100000
  if limit < 0 then Except.error "SQL syntax error"
  else Except.ok
    { taman := sortRows (fun a b => strLe (pyStr (dget a "nama_taman")) (pyStr (dget b "nama_taman"))) taman
      petugas := sortRows (fun a b => strLe (pyStr (dget a "nama_petugas")) (pyStr (dget b "nama_petugas"))) petugas
      kegiatan := sortRows (fun a b => strLe (pyStr (dget a "jenis_kegiatan")) (pyStr (dget b "jenis_kegiatan"))) kegiatan
      tanaman_ := sortRows
        (fun a b => (pyInt (dget a "id_taman")).getD 0 ≤ (pyInt (dget b "id_taman")).getD 0) tanaman_
      laporan := (((sortLaporan joined).take limit.toNat).map normTanggal) }

/-- The single park of the C1 scenario. -/
def tamanC1 : List Row := [[("id_taman", PyVal.int 1), ("nama_taman", PyVal.str "Taman A")]]

/-- The single plant of the C1 scenario. -/
def tanamanC1 : List Row :=
  [[("id_tanaman", PyVal.int 10), ("id_taman", PyVal.int 1), ("nama_umum", PyVal.str "Mawar")]]

/-- The report row of the C1 scenario, referencing plant 10 by identifier. -/
def laporanC1 : Row :=
  [("id_tanaman", PyVal.int 10), ("tanaman", PyVal.str "Mawar"),
   ("kegiatan", PyVal.str "Penyiraman"), ("isi_laporan", PyVal.str "Selesai")]

/-- The C1 scenario bundle: one park, one plant, one report. -/
def bundleC1 : Bundle := ⟨tamanC1, [], [], tanamanC1, [laporanC1]⟩

/-- The park-name-by-id map of the C1 scenario. -/
def m1C1 : List (Int × PyVal) := [((1 : Int), PyVal.str "Taman A")]

/-- The park-name-by-plant-id map of the C1 scenario. -/
def m2C1 : List (Int × PyVal) := map_taman_name_by_tanaman_id m1C1 tanamanC1

/-- The plant-by-name map of the C1 scenario. -/
def mnC1 : List (String × Row) := map_tanaman_by_name tanamanC1

/-- A bundle whose single park row has a malformed (non-numeric string)
identifier; the comprehension at app.py:228 raises on it. -/
def bundleBadTaman : Bundle :=
  ⟨[[("id_taman", PyVal.str "abc"), ("nama_taman", PyVal.str "Taman X")]], [], [], [], []⟩

/-- A well-formed bundle whose single report row has a malformed plant
identifier, which the wrapped coercion degrades to the placeholder. -/
def bundleBadLaporan : Bundle :=
  ⟨tamanC1, [], [], tanamanC1,
   [[("id_tanaman", PyVal.str "zz"), ("tanaman", PyVal.str "Mawar")]]⟩

/-- Two parks used by the C4 and C10 scenarios. -/
def tamanC4 : List Row :=
  [[("id_taman", PyVal.int 1), ("nama_taman", PyVal.str "Taman A")],
   [("id_taman", PyVal.int 2), ("nama_taman", PyVal.str "Taman B")]]

/-- The park-name-by-id map of the C4 and C10 scenarios. -/
def m1C4 : List (Int × PyVal) := [((1 : Int), PyVal.str "Taman A"), ((2 : Int), PyVal.str "Taman B")]

/-- Plant "Mawar" in park 1 carrying plant identifier 5. -/
def plantMawar : Row :=
  [("id_tanaman", PyVal.int 5), ("id_taman", PyVal.int 1), ("nama_umum", PyVal.str "Mawar")]

/-- Plant "Rose" in park 2 carrying the same plant identifier 5. -/
def plantRose : Row :=
  [("id_tanaman", PyVal.int 5), ("id_taman", PyVal.int 2), ("nama_umum", PyVal.str "Rose")]

/-- Plant row-set in which two distinct plants share identifier 5. -/
def tanamanC4 : List Row := [plantMawar, plantRose]

/-- A second plant also named "Mawar" (case-varied) in park 2, with its own
identifier; used for the duplicate-name scenario of C10. -/
def plantMawar2 : Row :=
  [("id_tanaman", PyVal.int 6), ("id_taman", PyVal.int 2), ("nama_umum", PyVal.str "MAWAR")]

/-- A report row carrying only the display name "Mawar". -/
def laporanNameOnly : Row := [("tanaman", PyVal.str "Mawar")]

/-- A report row referencing plant identifier 5. -/
def laporanById5 : Row := [("id_tanaman", PyVal.int 5)]

/-- A non-empty database state used by the bulk-wipe scenarios. -/
def dbC6 : DBState := ⟨[[("id_laporan", PyVal.int 1)]], [], [], [], [plantMawar]⟩

/-- Three park rows used by the C8 scenario. -/
def db3 : List Row :=
  [[("nama_taman", PyVal.str "a")], [("nama_taman", PyVal.str "b")], [("nama_taman", PyVal.str "c")]]

/-- A character of `replaceChar c rep l` comes from `rep` or is a
character of `l` other than `c`. -/
theorem mem_replaceChar {c : Char} {rep l : List Char} {x : Char}
    (hx : x ∈ replaceChar c rep l) : x ∈ rep ∨ (x ∈ l ∧ x ≠ c) := by
  induction l with
  | nil => simp [replaceChar] at hx
  | cons y ys ih =>
    simp only [replaceChar] at hx
    by_cases h : y = c
    · rw [if_pos h] at hx
      rcases List.mem_append.mp hx with h1 | h2
      · exact Or.inl h1
      · rcases ih h2 with h3 | ⟨h4, h5⟩
        · exact Or.inl h3
        · exact Or.inr ⟨List.mem_cons_of_mem _ h4, h5⟩
    · rw [if_neg h] at hx
      rcases List.mem_cons.mp hx with h1 | h2
      · subst h1; exact Or.inr ⟨List.mem_cons_self _ _, h⟩
      · rcases ih h2 with h3 | ⟨h4, h5⟩
        · exact Or.inl h3
        · exact Or.inr ⟨List.mem_cons_of_mem _ h4, h5⟩

/-- No character of an escaped string is raw markup: the output of the
replacement chain contains no angle bracket and no quote of either kind. -/
theorem escape_chars_safe {l : List Char} {x : Char} (hx : x ∈ escape_chars l) :
    x ≠ '<' ∧ x ≠ '>' ∧ x ≠ '"' ∧ x ≠ squote := by
  unfold escape_chars at hx
  rcases mem_replaceChar hx with h | ⟨hx, hq⟩
  · have e : ("&#39;".data) = ['&', '#', '3', '9', ';'] := rfl
    rw [e] at h
    fin_cases h <;> decide
  rcases mem_replaceChar hx with h | ⟨hx, hdq⟩
  · have e : ("&quot;".data) = ['&', 'q', 'u', 'o', 't', ';'] := rfl
    rw [e] at h
    fin_cases h <;> decide
  rcases mem_replaceChar hx with h | ⟨hx, hgt⟩
  · have e : ("&gt;".data) = ['&', 'g', 't', ';'] := rfl
    rw [e] at h
    fin_cases h <;> decide
  rcases mem_replaceChar hx with h | ⟨hx, hlt⟩
  · have e : ("&lt;".data) = ['&', 'l', 't', ';'] := rfl
    rw [e] at h
    fin_cases h <;> decide
  rcases mem_replaceChar hx with h | ⟨hx, _⟩
  · have e : ("&amp;".data) = ['&', 'a', 'm', 'p', ';'] := rfl
    rw [e] at h
    fin_cases h <;> decide
  · exact ⟨hlt, hgt, hdq, hq⟩

/-- If `a` is an element of `l`, the joined string contains `f a` as an
infix, with the explicit surrounding pieces. -/
theorem sjoin_split {α : Type} (f : α → String) {l : List α} {a : α} (h : a ∈ l) :
    ∃ pre post, sjoin (l.map f) = pre ++ f a ++ post := by
  induction l with
  | nil => simp at h
  | cons b bs ih =>
    rcases List.mem_cons.mp h with h1 | h2
    · refine ⟨"", sjoin (bs.map f), ?_⟩
      rw [h1]
      simp [sjoin, String.empty_append]
    · rcases ih h2 with ⟨pre, post, hp⟩
      refine ⟨f b ++ pre, post, ?_⟩
      simp [sjoin, hp, String.append_assoc]

/-- Every cell of every row appears in the built table exactly as the
escaped cell wrapped in a `<td>` element. -/
theorem build_table_cell_split (headers : List String) (rows_ : List (List PyVal))
    {r : List PyVal} {c : PyVal} (hr : r ∈ rows_) (hc : c ∈ r) :
    ∃ pre post,
      build_table headers rows_ = pre ++ ("<td>" ++ escape_html c ++ "</td>") ++ post := by
  rcases sjoin_split (fun c => "<td>" ++ escape_html c ++ "</td>") hc with ⟨p1, p2, h1⟩
  rcases sjoin_split
    (fun r => "<tr>" ++ sjoin (r.map (fun c => "<td>" ++ escape_html c ++ "</td>")) ++ "</tr>")
    hr with ⟨q1, q2, h2⟩
  refine ⟨"<table>" ++ ("<thead><tr>" ++
      sjoin (headers.map (fun h => "<th>" ++ escape_html (PyVal.str h) ++ "</th>")) ++
      "</tr></thead>") ++ ("<tbody>" ++ (q1 ++ ("<tr>" ++ p1))),
    (p2 ++ "</tr>") ++ (q2 ++ ("</tbody>" ++ "</table>")), ?_⟩
  simp only [build_table]
  rw [h2, h1]
  simp only [String.append_assoc]

/-- When the render succeeds, every cell of section V appears in the
document as the escaped cell wrapped in a `<td>` element. -/
theorem report_cell_split (b : Bundle) (tglStr : String) {m1 : List (Int × PyVal)}
    {r4 : List (List PyVal)} (hm : map_taman_name_by_id b.taman = some m1)
    (h4 : sec4_rows m1 (pyEnum b.tanaman_) = some r4)
    {c : PyVal} {r : List PyVal} (hr : r ∈ rows5 b m1) (hc : c ∈ r) :
    ∃ html pre post, build_report_html b tglStr = some html ∧
      html = pre ++ ("<td>" ++ escape_html c ++ "</td>") ++ post := by
  rcases build_table_cell_split hdr5 (rows5 b m1) hr hc with ⟨pre0, post0, htab⟩
  refine ⟨htmlA0 ++ escape_html (PyVal.str tglStr) ++ htmlA1 ++ report_sec1 b ++ htmlA2 ++
      report_sec2 b ++ htmlA3 ++ report_sec3 b ++ htmlA4 ++ build_table hdr4 r4 ++ htmlA5 ++
      build_table hdr5 (rows5 b m1) ++ htmlA6,
    htmlA0 ++ (escape_html (PyVal.str tglStr) ++ (htmlA1 ++ (report_sec1 b ++ (htmlA2 ++
      (report_sec2 b ++ (htmlA3 ++ (report_sec3 b ++ (htmlA4 ++ (build_table hdr4 r4 ++
      (htmlA5 ++ pre0)))))))))),
    post0 ++ htmlA6, ?_, ?_⟩
  · simp only [build_report_html, hm, h4]
  · rw [htab]
    simp only [String.append_assoc]

/-- One unfolding step of `dfind`. -/
theorem dfind_cons {K V : Type} [BEq K] (e : K × V) (m : List (K × V)) (k : K) :
    dfind (e :: m) k =
      match dfind m k with
      | some w => some w
      | Option.none => if e.1 == k then some e.2 else Option.none := rfl

/-- Later entries shadow earlier ones: lookup in an appended dict prefers
the second part. -/
theorem dfind_append {K V : Type} [BEq K] (m1 m2 : List (K × V)) (k : K) :
    dfind (m1 ++ m2) k =
      match dfind m2 k with
      | some w => some w
      | Option.none => dfind m1 k := by
  induction m1 with
  | nil => cases h : dfind m2 k <;> simp [dfind, h]
  | cons e es ih =>
    rw [List.cons_append, dfind_cons, ih, dfind_cons]
    cases h2 : dfind m2 k <;> cases h1 : dfind es k <;> simp

/-- A name absent from every plant row is absent from the name map. -/
theorem dfind_map_name_none {l : List Row} {k : String} (h : ∀ y ∈ l, nameKey y ≠ k) :
    dfind (map_tanaman_by_name l) k = Option.none := by
  induction l with
  | nil => rfl
  | cons y ys ih =>
    have h1 : nameKey y ≠ k := h y (List.mem_cons_self _ _)
    have h2 := ih (fun z hz => h z (List.mem_cons_of_mem _ hz))
    rw [map_tanaman_by_name, List.map_cons, dfind_cons,
      show List.map (fun x => (nameKey x, x)) ys = map_tanaman_by_name ys from rfl, h2]
    simp [h1]

/-- A row found through the name map is a row of the plant row-set. -/
theorem mem_of_dfind_map_name {l : List Row} {k : String} {x : Row}
    (h : dfind (map_tanaman_by_name l) k = some x) : x ∈ l := by
  induction l with
  | nil => simp [map_tanaman_by_name, dfind] at h
  | cons y ys ih =>
    rw [map_tanaman_by_name, List.map_cons, dfind_cons] at h
    cases hr : dfind (List.map (fun x => (nameKey x, x)) ys) k with
    | some w =>
      rw [hr] at h
      have hw : w = x := by simpa using h
      exact List.mem_cons_of_mem _ (ih (hw ▸ hr))
    | none =>
      rw [hr] at h
      by_cases hk : nameKey y == k
      · rw [if_pos hk] at h
        have : y = x := by simpa using h
        exact this ▸ List.mem_cons_self _ _
      · rw [if_neg hk] at h
        exact absurd h (by simp)

/-- If every plant row carrying parsed identifier `idt` has a park field
that is `None` or fails conversion, the plant-id map has no entry for
`idt`. -/
theorem m2_find_none {m1 : List (Int × PyVal)} {l : List Row} {idt : Int}
    (h : ∀ y ∈ l, pyInt (dget y "id_tanaman") = some idt →
      dget y "id_taman" = PyVal.none ∨ pyInt (dget y "id_taman") = Option.none) :
    dfind (map_taman_name_by_tanaman_id m1 l) idt = Option.none := by
  induction l with
  | nil => rfl
  | cons y ys ih =>
    have hrest := ih (fun z hz => h z (List.mem_cons_of_mem _ hz))
    cases hA : pyInt (dget y "id_tanaman") with
    | none => simpa [map_taman_name_by_tanaman_id, hA] using hrest
    | some j =>
      by_cases hB : dget y "id_taman" = PyVal.none
      · simpa [map_taman_name_by_tanaman_id, hA, hB] using hrest
      · cases hC : pyInt (dget y "id_taman") with
        | none => simpa [map_taman_name_by_tanaman_id, hA, hB, hC] using hrest
        | some kk =>
          have hj : j ≠ idt := by
            intro hji
            subst hji
            rcases h y (List.mem_cons_self _ _) hA with hc | hc
            · exact hB hc
            · rw [hC] at hc
              exact Option.noConfusion hc
          simp only [map_taman_name_by_tanaman_id, hA, if_neg hB, hC, dfind_cons, hrest]
          simp [hj]

/-- If some plant row carries parsed identifier `idt` and every such row has
the same park field `v`, which converts to `k`, the plant-id map resolves
`idt` to the park name looked up at `k`. -/
theorem m2_find_some {m1 : List (Int × PyVal)} {l : List Row} {idt : Int} {v : PyVal} {k : Int}
    (hex : ∃ x ∈ l, pyInt (dget x "id_tanaman") = some idt)
    (hval : ∀ y ∈ l, pyInt (dget y "id_tanaman") = some idt → dget y "id_taman" = v)
    (hvN : v ≠ PyVal.none) (hk : pyInt v = some k) :
    dfind (map_taman_name_by_tanaman_id m1 l) idt = some (dfindD m1 k (PyVal.str "-")) := by
  induction l with
  | nil =>
    rcases hex with ⟨x, hx, _⟩
    simp at hx
  | cons y ys ih =>
    by_cases hys : ∃ x ∈ ys, pyInt (dget x "id_tanaman") = some idt
    · have hrest := ih hys (fun z hz => hval z (List.mem_cons_of_mem _ hz))
      cases hA : pyInt (dget y "id_tanaman") with
      | none => simpa [map_taman_name_by_tanaman_id, hA] using hrest
      | some j =>
        by_cases hB : dget y "id_taman" = PyVal.none
        · simpa [map_taman_name_by_tanaman_id, hA, hB] using hrest
        · cases hC : pyInt (dget y "id_taman") with
          | none => simpa [map_taman_name_by_tanaman_id, hA, hB, hC] using hrest
          | some kk =>
            simp only [map_taman_name_by_tanaman_id, hA, if_neg hB, hC, dfind_cons, hrest]
    · rcases hex with ⟨x, hx, hxi⟩
      rcases List.mem_cons.mp hx with rfl | hx2
      · have hB : dget x "id_taman" = v := hval x (List.mem_cons_self _ _) hxi
        have hBn : ¬dget x "id_taman" = PyVal.none := by
          rw [hB]
          exact hvN
        have hrest : dfind (map_taman_name_by_tanaman_id m1 ys) idt = Option.none :=
          m2_find_none (fun z hz hzi => absurd ⟨z, hz, hzi⟩ hys)
        simp only [map_taman_name_by_tanaman_id, hxi, hB, hk, if_neg hvN, dfind_cons, hrest]
        simp
      · exact absurd ⟨x, hx2, hxi⟩ hys

/-- A member of the enumeration is a member of the list. -/
theorem mem_of_mem_enumFromN {α : Type} {n : Nat} {l : List α} {p : Nat × α}
    (h : p ∈ enumFromN n l) : p.2 ∈ l := by
  induction l generalizing n with
  | nil => simp [enumFromN] at h
  | cons x xs ih =>
    rcases List.mem_cons.mp h with h1 | h2
    · rw [h1]
      exact List.mem_cons_self _ _
    · exact List.mem_cons_of_mem _ (ih h2)

/-- The parks map builds whenever every guarded park row has a convertible
identifier and a present name. -/
theorem map_taman_name_by_id_isSome {l : List Row}
    (h : ∀ t ∈ l, dget t "id_taman" = PyVal.none ∨
      ((pyInt (dget t "id_taman")).isSome ∧ (dgetKey t "nama_taman").isSome)) :
    (map_taman_name_by_id l).isSome := by
  induction l with
  | nil => rfl
  | cons t ts ih =>
    have hrest := ih (fun z hz => h z (List.mem_cons_of_mem _ hz))
    by_cases h1 : dget t "id_taman" = PyVal.none
    · simpa [map_taman_name_by_id, h1] using hrest
    · rcases h t (List.mem_cons_self _ _) with h2 | ⟨h3, h4⟩
      · exact absurd h2 h1
      · obtain ⟨k, hk⟩ := Option.isSome_iff_exists.mp h3
        obtain ⟨v, hv⟩ := Option.isSome_iff_exists.mp h4
        obtain ⟨rest, hrt⟩ := Option.isSome_iff_exists.mp hrest
        simp [map_taman_name_by_id, h1, hk, hv, hrt]

/-- Section IV builds whenever every plant row's park identifier (or its
falsy replacement `0`) converts. -/
theorem sec4_rows_isSome {m1 : List (Int × PyVal)} {l : List (Nat × Row)}
    (h : ∀ p ∈ l,
      (pyInt (if truthy (dget p.2 "id_taman") then dget p.2 "id_taman" else PyVal.int 0)).isSome) :
    (sec4_rows m1 l).isSome := by
  induction l with
  | nil => rfl
  | cons p ps ih =>
    have hrest := ih (fun z hz => h z (List.mem_cons_of_mem _ hz))
    obtain ⟨k, hk⟩ := Option.isSome_iff_exists.mp (h p (List.mem_cons_self _ _))
    obtain ⟨rs, hrs⟩ := Option.isSome_iff_exists.mp hrest
    simp [sec4_rows, sec4_row, hk, hrs]

/-- A rejected `DELETE` anywhere in the sequence aborts the transaction. -/
theorem runDeletes_none_of_fail {failAt : Tbl → Bool} :
    ∀ (ts : List Tbl) (s : DBState), (∃ t ∈ ts, failAt t = true) →
      runDeletes failAt ts s = Option.none := by
  intro ts
  induction ts with
  | nil =>
    intro s h
    rcases h with ⟨t, ht, _⟩
    simp at ht
  | cons u us ih =>
    intro s h
    by_cases hu : failAt u = true
    · simp [runDeletes, hu]
    · rcases h with ⟨t, ht, hft⟩
      rcases List.mem_cons.mp ht with rfl | h2
      · exact absurd hft hu
      · simp only [runDeletes, Bool.not_eq_true] at hu ⊢
        rw [hu]
        simpa using ih (clearTbl u s) ⟨t, h2, hft⟩

/-- Inserting into a sorted list grows it by one. -/
theorem length_insertSorted (le : Row → Row → Bool) (x : Row) :
    ∀ l : List Row, (insertSorted le x l).length = l.length + 1 := by
  intro l
  induction l with
  | nil => rfl
  | cons y ys ih =>
    by_cases h : le x y
    · simp [insertSorted, h]
    · simp [insertSorted, h, ih]

/-- Sorting preserves length. -/
theorem length_sortRows (le : Row → Row → Bool) :
    ∀ l : List Row, (sortRows le l).length = l.length := by
  intro l
  induction l with
  | nil => rfl
  | cons y ys ih => simp [sortRows, length_insertSorted, ih]

/-- C1: a report row's park name prefers the plant-identifier path when the
identifier is present and converts (the park name is then the plant-id map
entry, defaulting to "-" when absent); a row with no identifier, a truthy
display name, and a name-map hit with a present, convertible park id
resolves through the park map; a row with neither identifier nor name
renders "-". In the concrete scenario (park 1 "Taman A", plant 10 in park
1 named "Mawar", one report referencing plant 10) the rendered document
contains the cell `<td>Taman A</td>`. -/
theorem c1_park_name_resolution :
    (∀ (m2 : List (Int × PyVal)) (mn : List (String × Row)) (m1 : List (Int × PyVal))
      (L : Row) (n : Int), dget L "id_tanaman" ≠ PyVal.none →
        pyInt (dget L "id_tanaman") = some n →
        laporanNamaTaman m2 mn m1 L = dfindD m2 n (PyVal.str "-"))
    ∧ (∀ (m2 : List (Int × PyVal)) (mn : List (String × Row)) (m1 : List (Int × PyVal))
      (L t_ : Row) (k : Int), dget L "id_tanaman" = PyVal.none →
        truthy (dget L "tanaman") = true →
        dfind mn (pyLower (pyStr (dget L "tanaman"))) = some t_ →
        t_ ≠ [] → dget t_ "id_taman" ≠ PyVal.none → pyInt (dget t_ "id_taman") = some k →
        laporanNamaTaman m2 mn m1 L = dfindD m1 k (PyVal.str "-"))
    ∧ (∀ (m2 : List (Int × PyVal)) (mn : List (String × Row)) (m1 : List (Int × PyVal))
      (L : Row), dget L "id_tanaman" = PyVal.none → truthy (dget L "tanaman") = false →
        laporanNamaTaman m2 mn m1 L = PyVal.str "-")
    ∧ (∃ html pre post, build_report_html bundleC1 "07 October 2025" = some html ∧
        html = pre ++ "<td>Taman A</td>" ++ post) := by
  refine ⟨?_, ?_, ?_, ?_⟩
  · intro m2 mn m1 L n hne hpy
    rw [laporanNamaTaman, if_pos hne, hpy]
  · intro m2 mn m1 L t_ k hid hname hfind hne htne hk
    simp [laporanNamaTaman, hid, hname, hfind, hne, htne, hk]
  · intro m2 mn m1 L hid hname
    simp [laporanNamaTaman, hid, hname]
  · have hm : map_taman_name_by_id bundleC1.taman = some m1C1 := by decide
    have h4 : sec4_rows m1C1 (pyEnum bundleC1.tanaman_) =
        some [[PyVal.int 1, PyVal.str "Taman A", PyVal.str "Mawar", PyVal.str "-",
          PyVal.str "-"]] := by decide
    have hr : [PyVal.int 1, PyVal.str "", PyVal.str "Taman A", PyVal.str "Mawar",
        PyVal.str "Penyiraman", PyVal.str "Selesai"] ∈ rows5 bundleC1 m1C1 := by decide
    have hc : PyVal.str "Taman A" ∈
        [PyVal.int 1, PyVal.str "", PyVal.str "Taman A", PyVal.str "Mawar",
          PyVal.str "Penyiraman", PyVal.str "Selesai"] := by decide
    rcases report_cell_split bundleC1 "07 October 2025" hm h4 hr hc with
      ⟨html, pre, post, hbuild, hinf⟩
    refine ⟨html, pre, post, hbuild, ?_⟩
    rw [hinf]
    have he : ("<td>" ++ escape_html (PyVal.str "Taman A") ++ "</td>") = "<td>Taman A</td>" := by
      decide
    rw [he]

/-- Witness for C1: the identifier-preferring clause evaluated on the
concrete C1 scenario yields the park name "Taman A". -/
theorem c1_witness : laporanNamaTaman m2C1 mnC1 m1C1 laporanC1 = PyVal.str "Taman A" := by
  have h := c1_park_name_resolution.1 m2C1 mnC1 m1C1 laporanC1 10 (by decide) (by decide)
  rw [h]
  rfl

/-- C2: every cell of every rendered table appears only as its escaped
form wrapped in a `<td>` element, the escaped form contains no angle
bracket and no quote of either kind, and the five named characters escape
to their entities (in particular `<script>` renders as
`&lt;script&gt;`). -/
theorem c2_cells_escaped :
    (∀ (headers : List String) (rows_ : List (List PyVal)) (r : List PyVal) (c : PyVal),
      r ∈ rows_ → c ∈ r →
      ∃ pre post, build_table headers rows_ = pre ++ ("<td>" ++ escape_html c ++ "</td>") ++ post)
    ∧ (∀ (v : PyVal) (x : Char), x ∈ (escape_html v).data →
        x ≠ '<' ∧ x ≠ '>' ∧ x ≠ '"' ∧ x ≠ squote)
    ∧ escape_html (PyVal.str "<script>") = "&lt;script&gt;"
    ∧ escape_html (PyVal.str "&") = "&amp;"
    ∧ escape_html (PyVal.str "\"") = "&quot;"
    ∧ escape_html (PyVal.str (String.mk [squote])) = "&#39;" := by
  refine ⟨fun headers rows_ r c hr hc => build_table_cell_split headers rows_ hr hc,
    fun v x hx => ?_, by decide, by decide, by decide, by decide⟩
  have he : (escape_html v).data = escape_chars ((if v = PyVal.none then "" else pyStr v).data) :=
    rfl
  rw [he] at hx
  exact escape_chars_safe hx

/-- Witness for C2: the `<script>` cell of a concrete table occurs only in
escaped form. -/
theorem c2_witness :
    ∃ pre post, build_table ["Isi"] [[PyVal.str "<script>"]] =
      pre ++ ("<td>" ++ escape_html (PyVal.str "<script>") ++ "</td>") ++ post :=
  c2_cells_escaped.1 ["Isi"] [[PyVal.str "<script>"]] [PyVal.str "<script>"]
    (PyVal.str "<script>") (by decide) (by decide)

/-- C9: a `None` cell escapes to the empty string, never to the text
"None", and a table with a `None` cell renders the empty `<td></td>`
element at that cell. -/
theorem c9_none_renders_empty (headers : List String) (rows_ : List (List PyVal))
    (r : List PyVal) (hr : r ∈ rows_) (hc : PyVal.none ∈ r) :
    escape_html PyVal.none = "" ∧ escape_html PyVal.none ≠ "None" ∧
    ∃ pre post, build_table headers rows_ = pre ++ "<td></td>" ++ post := by
  refine ⟨by decide, by decide, ?_⟩
  rcases build_table_cell_split headers rows_ hr hc with ⟨pre, post, h⟩
  refine ⟨pre, post, ?_⟩
  rw [h]
  have he : ("<td>" ++ escape_html PyVal.none ++ "</td>") = "<td></td>" := by decide
  rw [he]

/-- Witness for C9 at a concrete one-cell table. -/
theorem c9_witness :
    escape_html PyVal.none = "" ∧ escape_html PyVal.none ≠ "None" ∧
    ∃ pre post, build_table ["Lokasi"] [[PyVal.none]] = pre ++ "<td></td>" ++ post :=
  c9_none_renders_empty ["Lokasi"] [[PyVal.none]] [PyVal.none] (by decide) (by decide)

/-- Counterexample for C3: a bundle whose single park row carries the
malformed identifier "abc" makes the unguarded conversion in the parks-map
comprehension raise, aborting the whole render instead of degrading that
cell to the placeholder. -/
theorem c3_counterexample :
    build_report_html bundleBadTaman "01 January 2025" = Option.none := by decide

/-- C3 (amended): the render is total provided every guarded park row's
identifier converts with its name present and every plant row's park
identifier (or its falsy replacement 0) converts; under those hypotheses
the report rows may be arbitrarily malformed. Additionally, in any report
row an identifier that fails conversion, or one whose park cannot be
found, degrades that cell to the placeholder "-". -/
theorem c3_amended_render_totality (b : Bundle) (tglStr : String)
    (htaman : ∀ t ∈ b.taman, dget t "id_taman" = PyVal.none ∨
      ((pyInt (dget t "id_taman")).isSome ∧ (dgetKey t "nama_taman").isSome))
    (htan : ∀ x ∈ b.tanaman_,
      (pyInt (if truthy (dget x "id_taman") then dget x "id_taman" else PyVal.int 0)).isSome) :
    (∃ html, build_report_html b tglStr = some html)
    ∧ (∀ (m2 : List (Int × PyVal)) (mn : List (String × Row)) (m1 : List (Int × PyVal)) (L : Row),
        dget L "id_tanaman" ≠ PyVal.none → pyInt (dget L "id_tanaman") = Option.none →
        laporanNamaTaman m2 mn m1 L = PyVal.str "-")
    ∧ (∀ (m2 : List (Int × PyVal)) (mn : List (String × Row)) (m1 : List (Int × PyVal))
        (L : Row) (n : Int), dget L "id_tanaman" ≠ PyVal.none →
        pyInt (dget L "id_tanaman") = some n → dfind m2 n = Option.none →
        laporanNamaTaman m2 mn m1 L = PyVal.str "-") := by
  refine ⟨?_, ?_, ?_⟩
  · obtain ⟨m1, hm⟩ := Option.isSome_iff_exists.mp (map_taman_name_by_id_isSome htaman)
    obtain ⟨r4, h4⟩ := Option.isSome_iff_exists.mp
      (@sec4_rows_isSome m1 (pyEnum b.tanaman_) (fun p hp => htan p.2 (mem_of_mem_enumFromN hp)))
    refine ⟨htmlA0 ++ escape_html (PyVal.str tglStr) ++ htmlA1 ++ report_sec1 b ++ htmlA2 ++
      report_sec2 b ++ htmlA3 ++ report_sec3 b ++ htmlA4 ++ build_table hdr4 r4 ++ htmlA5 ++
      build_table hdr5 (rows5 b m1) ++ htmlA6, ?_⟩
    simp only [build_report_html, hm, h4]
  · intro m2 mn m1 L hne hpy
    rw [laporanNamaTaman, if_pos hne, hpy]
  · intro m2 mn m1 L n hne hpy hnone
    rw [laporanNamaTaman, if_pos hne, hpy]
    simp [dfindD, hnone]

/-- Witness for C3 (amended): a well-formed bundle whose only report row
has the malformed plant identifier "zz" still renders. -/
theorem c3_witness :
    ∃ html, build_report_html bundleBadLaporan "01 January 2025" = some html :=
  (c3_amended_render_totality bundleBadLaporan "01 January 2025"
    (by decide) (by decide)).1

/-- Counterexample for C4: with one row-set in which two distinct plants
share identifier 5 (last one wins in the plant-id map), a report carrying
only the display name "Mawar" resolves to "Taman A" through the name
fallback, while the identifier path for that same plant (identifier 5)
resolves to "Taman B"; the parks map is the one built from the two parks. -/
theorem c4_counterexample :
    map_taman_name_by_id tamanC4 = some m1C4
    ∧ nameKey plantMawar = pyLower (pyStr (dget laporanNameOnly "tanaman"))
    ∧ pyInt (dget plantMawar "id_tanaman") = some 5
    ∧ laporanNamaTaman (map_taman_name_by_tanaman_id m1C4 tanamanC4)
        (map_tanaman_by_name tanamanC4) m1C4 laporanNameOnly = PyVal.str "Taman A"
    ∧ laporanNamaTaman (map_taman_name_by_tanaman_id m1C4 tanamanC4)
        (map_tanaman_by_name tanamanC4) m1C4 laporanById5 = PyVal.str "Taman B"
    ∧ PyVal.str "Taman A" ≠ PyVal.str "Taman B" := by decide

/-- C4 (amended): when the report row carries no identifier but a truthy
display name, the name map finds a non-empty plant row `x` whose
identifier converts to `idt`, and every plant row whose identifier
converts to `idt` carries the same park field as `x` (in particular when
plant identifiers are unique), the name-based fallback agrees with the
identifier-based path for that plant. -/
theorem c4_amended_fallback (tanaman_ : List Row) (m1 : List (Int × PyVal)) (L x : Row)
    (idt : Int)
    (hLid : dget L "id_tanaman" = PyVal.none)
    (hLname : truthy (dget L "tanaman") = true)
    (hfind : dfind (map_tanaman_by_name tanaman_) (pyLower (pyStr (dget L "tanaman"))) = some x)
    (hxne : x ≠ [])
    (hidt : pyInt (dget x "id_tanaman") = some idt)
    (huniq : ∀ y ∈ tanaman_, pyInt (dget y "id_tanaman") = some idt →
      dget y "id_taman" = dget x "id_taman") :
    laporanNamaTaman (map_taman_name_by_tanaman_id m1 tanaman_) (map_tanaman_by_name tanaman_)
      m1 L
    = laporanNamaTaman (map_taman_name_by_tanaman_id m1 tanaman_) (map_tanaman_by_name tanaman_)
      m1 [("id_tanaman", PyVal.int idt)] := by
  have hxmem : x ∈ tanaman_ := mem_of_dfind_map_name hfind
  have hd : dget [("id_tanaman", PyVal.int idt)] "id_tanaman" = PyVal.int idt := rfl
  have hR : laporanNamaTaman (map_taman_name_by_tanaman_id m1 tanaman_)
      (map_tanaman_by_name tanaman_) m1 [("id_tanaman", PyVal.int idt)]
      = dfindD (map_taman_name_by_tanaman_id m1 tanaman_) idt (PyVal.str "-") := by
    rw [laporanNamaTaman, hd]
    simp [pyInt]
  rw [hR, laporanNamaTaman, if_neg (fun hcc => hcc hLid), if_pos hLname, hfind]
  by_cases hxt : dget x "id_taman" = PyVal.none
  · have h2 : dfind (map_taman_name_by_tanaman_id m1 tanaman_) idt = Option.none :=
      m2_find_none (fun y hy hyi => Or.inl ((huniq y hy hyi).trans hxt))
    simp [hxt, dfindD, h2]
  · cases hpx : pyInt (dget x "id_taman") with
    | none =>
      have h2 : dfind (map_taman_name_by_tanaman_id m1 tanaman_) idt = Option.none :=
        m2_find_none (fun y hy hyi => Or.inr (by rw [huniq y hy hyi]; exact hpx))
      simp [hxne, hxt, hpx, dfindD, h2]
    | some k =>
      have h2 : dfind (map_taman_name_by_tanaman_id m1 tanaman_) idt
          = some (dfindD m1 k (PyVal.str "-")) :=
        m2_find_some ⟨x, hxmem, hidt⟩ (fun y hy hyi => huniq y hy hyi) hxt hpx
      simp [hxne, hxt, hpx, dfindD, h2]

/-- Witness for C4 (amended): with the unique-identifier C1 plant row-set,
a name-only report agrees with the identifier path for plant 10. -/
theorem c4_witness :
    laporanNamaTaman (map_taman_name_by_tanaman_id m1C1 tanamanC1)
      (map_tanaman_by_name tanamanC1) m1C1 [("tanaman", PyVal.str "Mawar")]
    = laporanNamaTaman (map_taman_name_by_tanaman_id m1C1 tanamanC1)
      (map_tanaman_by_name tanamanC1) m1C1 [("id_tanaman", PyVal.int 10)] :=
  c4_amended_fallback tanamanC1 m1C1 [("tanaman", PyVal.str "Mawar")]
    [("id_tanaman", PyVal.int 10), ("id_taman", PyVal.int 1), ("nama_umum", PyVal.str "Mawar")]
    10 (by decide) (by decide) (by decide) (by decide) (by decide) (by decide)

/-- C10: when several plant rows share a case-folded common name, the name
map resolves that name to the row appearing last in the row-set. -/
theorem c10_last_occurrence_wins (l₁ l₂ : List Row) (x : Row) (k : String)
    (hk : nameKey x = k) (h₂ : ∀ y ∈ l₂, nameKey y ≠ k) :
    dfind (map_tanaman_by_name (l₁ ++ x :: l₂)) k = some x := by
  have hsplit : map_tanaman_by_name (l₁ ++ x :: l₂)
      = map_tanaman_by_name l₁ ++ ((nameKey x, x) :: map_tanaman_by_name l₂) := by
    simp [map_tanaman_by_name]
  have hnone : dfind (map_tanaman_by_name l₂) k = Option.none := dfind_map_name_none h₂
  have h3 : dfind ((nameKey x, x) :: map_tanaman_by_name l₂) k = some x := by
    rw [dfind_cons, hnone]
    simp [hk]
  rw [hsplit, dfind_append, h3]

/-- Witness for C10: of two plants whose common names case-fold to
"mawar", the later row (plant 6, park 2) is the one the name map returns. -/
theorem c10_witness :
    dfind (map_tanaman_by_name ([plantMawar] ++ plantMawar2 :: [])) "mawar" = some plantMawar2 :=
  c10_last_occurrence_wins [plantMawar] [] plantMawar2 "mawar" (by decide) (by decide)

/-- C5: with a truthy confirmation, the bulk wipe issues its `DELETE`s in
the FK-safe order laporan → tanaman → petugas → kegiatan → taman; when the
store accepts them all the committed state has all five tables empty, and
when the store rejects any of them the whole transaction rolls back,
leaving the committed state unchanged. -/
theorem c5_wipe_order_and_atomicity (payload : Row) (failAt : Tbl → Bool) (db : DBState)
    (hconf : truthy (dget payload "confirm") = true) :
    wipeOrder = [Tbl.laporan, Tbl.tanaman, Tbl.petugas, Tbl.kegiatan, Tbl.taman]
    ∧ ((∀ t, failAt t = false) → admin_clear_all payload failAt db = (200, emptyDB))
    ∧ ((∃ t, failAt t = true) → admin_clear_all payload failAt db = (500, db)) := by
  refine ⟨rfl, ?_, ?_⟩
  · intro h
    have e1 := h Tbl.laporan
    have e2 := h Tbl.tanaman
    have e3 := h Tbl.petugas
    have e4 := h Tbl.kegiatan
    have e5 := h Tbl.taman
    cases db
    simp [admin_clear_all, hconf, wipeOrder, runDeletes, e1, e2, e3, e4, e5, clearTbl, emptyDB]
  · rintro ⟨t, ht⟩
    have hmem : t ∈ wipeOrder := by cases t <;> simp [wipeOrder]
    have hnone := runDeletes_none_of_fail wipeOrder db ⟨t, hmem, ht⟩
    simp [admin_clear_all, hconf, hnone]

/-- Witness for C5: a confirmed wipe against a store that accepts every
delete empties all five tables. -/
theorem c5_witness :
    admin_clear_all [("confirm", PyVal.int 1)] (fun _ => false) dbC6 = (200, emptyDB) :=
  (c5_wipe_order_and_atomicity [("confirm", PyVal.int 1)] (fun _ => false) dbC6
    (by decide)).2.1 (fun _ => rfl)

/-- Counterexample for C6: the gate is Python truthiness, not equality with
`true` — the non-true confirmation value "false" (a non-empty string, hence
truthy) lets the wipe proceed and empty every table. -/
theorem c6_counterexample :
    admin_clear_all [("confirm", PyVal.str "false")] (fun _ => false) dbC6 = (200, emptyDB)
    ∧ dbC6 ≠ emptyDB := by decide

/-- C6 (amended): a request whose confirmation field is falsy (absent,
null, false, 0 or an empty string) is rejected with a 400 before any
statement runs, leaving all five tables unchanged; any truthy value — not
only `true` — lets the wipe proceed. -/
theorem c6_amended_falsy_confirm (payload : Row) (failAt : Tbl → Bool) (db : DBState)
    (h : truthy (dget payload "confirm") = false) :
    admin_clear_all payload failAt db = (400, db) := by
  simp [admin_clear_all, h]

/-- Witness for C6 (amended): a body without the confirmation field is
rejected and the state is untouched. -/
theorem c6_witness : admin_clear_all [] (fun _ => true) dbC6 = (400, dbC6) :=
  c6_amended_falsy_confirm [] (fun _ => true) dbC6 (by decide)

/-- C7: with valid integer foreign keys, a falsy (omitted or empty)
`tanggal` inserts the current time while a supplied non-empty timestamp
string is inserted exactly; the three keys and the report text are the
same in both cases. -/
theorem c7_timestamp_default (p : Row) (now : PyVal) (a b c : Int)
    (h1 : pyInt (dget p "id_tanaman") = some a)
    (h2 : pyInt (dget p "id_petugas") = some b)
    (h3 : pyInt (dget p "id_kegiatan") = some c) :
    (truthy (dget p "tanggal") = false →
      create_laporan p now = Except.ok ⟨a, b, c, now, dgetD p "isi_laporan" (PyVal.str "")⟩)
    ∧ (∀ s : String, s ≠ "" → dget p "tanggal" = PyVal.str s →
      create_laporan p now =
        Except.ok ⟨a, b, c, PyVal.str s, dgetD p "isi_laporan" (PyVal.str "")⟩) := by
  constructor
  · intro ht
    simp [create_laporan, h1, h2, h3, ht]
  · intro s hs hts
    simp [create_laporan, h1, h2, h3, hts, truthy, hs]

/-- Witness for C7: a creation request with an explicit timestamp inserts
exactly that timestamp and the given keys and text. -/
theorem c7_witness :
    create_laporan [("id_tanaman", PyVal.str "10"), ("id_petugas", PyVal.int 2),
      ("id_kegiatan", PyVal.int 3), ("tanggal", PyVal.str "2024-01-02 03:04:05"),
      ("isi_laporan", PyVal.str "Rapi")] (PyVal.dt "2025-06-01 12:00:00")
    = Except.ok ⟨10, 2, 3, PyVal.str "2024-01-02 03:04:05", PyVal.str "Rapi"⟩ := by
  have h := (c7_timestamp_default
    [("id_tanaman", PyVal.str "10"), ("id_petugas", PyVal.int 2),
      ("id_kegiatan", PyVal.int 3), ("tanggal", PyVal.str "2024-01-02 03:04:05"),
      ("isi_laporan", PyVal.str "Rapi")] (PyVal.dt "2025-06-01 12:00:00") 10 2 3
    (by decide) (by decide) (by decide)).2 "2024-01-02 03:04:05" (by decide) (by decide)
  rw [h]
  rfl

/-- Counterexample for C8: the parks list endpoint ignores a supplied
`limit` argument entirely — with three rows and `limit=1` it still returns
all three rows, identically to a request with no arguments. -/
theorem c8_counterexample :
    (list_taman db3 [("limit", "1")]).length = 3
    ∧ list_taman db3 [("limit", "1")] = list_taman db3 [] := by
  exact ⟨by decide, rfl⟩

/-- C8 (amended): the parks, staff and activity-type lists return every
row and the plants list every matching row, regardless of any argument;
only the reports list applies a default cap (20) and the report bundle a
default cap (100000) on report rows when the caller supplies no limit. -/
theorem c8_amended_limits :
    (∀ (db : List Row) (args : Args), (list_taman db args).length = db.length)
    ∧ (∀ (db : List Row) (args : Args), (list_petugas db args).length = db.length)
    ∧ (∀ (db : List Row) (args : Args), (list_kegiatan db args).length = db.length)
    ∧ (∀ (db : List Row) (args : Args) (i : Int), argGetIntOpt args "id_taman" = some i →
        i ≠ 0 → ∃ out, list_tanaman db args = Except.ok out ∧
          out.length = (db.filter (fun r => pyInt (dget r "id_taman") == some i)).length)
    ∧ (∀ (joined : List Row) (args : Args), argFind args "limit" = Option.none →
        ∃ out, list_laporan joined args = Except.ok out ∧ out.length ≤ 20)
    ∧ (∀ (taman petugas kegiatan tanaman_ joined : List Row) (args : Args),
        argFind args "limit" = Option.none →
        ∃ bndl, report_all taman petugas kegiatan tanaman_ joined args = Except.ok bndl ∧
          bndl.laporan.length ≤ 100000) := by
  refine ⟨?_, ?_, ?_, ?_, ?_, ?_⟩
  · intro db args
    exact length_sortRows _ db
  · intro db args
    exact length_sortRows _ db
  · intro db args
    exact length_sortRows _ db
  · intro db args i hi h0
    simp only [list_tanaman, hi]
    rw [if_neg h0]
    exact ⟨_, rfl, length_sortRows _ _⟩
  · intro joined args h
    have hl : argGetInt args "limit" 20 = 20 := by simp [argGetInt, h]
    simp only [list_laporan, hl]
    rw [if_neg (by norm_num)]
    refine ⟨_, rfl, ?_⟩
    rw [List.length_take]
    exact le_trans (Nat.min_le_left _ _) (by norm_num)
  · intro taman petugas kegiatan tanaman_ joined args h
    have hl : argGetInt args "limit" 100000 = 100000 := by simp [argGetInt, h]
    simp only [report_all, hl]
    rw [if_neg (by norm_num)]
    refine ⟨_, rfl, ?_⟩
    rw [List.length_map, List.length_take]
    exact le_trans (Nat.min_le_left _ _) (by norm_num)

/-- Witness for C8 (amended): the reports list with no arguments returns
at most its default cap of 20 rows. -/
theorem c8_witness : ∃ out, list_laporan db3 [] = Except.ok out ∧ out.length ≤ 20 :=
  c8_amended_limits.2.2.2.2.1 db3 [] rfl

end TamanKota
